/-
Verification of good-ass-pydantic-integrator against its design specification.

The development shallowly embeds the Python sources:
  - convert.py        : the value normalizer (string → richer scalar types)
  - customizer.py     : post-generation AST customization of generated models
  - gapi.py           : formatting / model-content generation pipeline
  - gapi_client.py    : the client repair state machine (parse / rebuild /
                        sample persistence / redundant-sample pruning)

External collaborators (pydantic TypeAdapter codecs, the degenson
SchemaBuilder, the datamodel-code-generator, the ruff subprocess) are either
parameterized abstractly or, where a concrete decision is needed, modelled
from the spec's description of their canonical interface; such definitions
carry a doc comment starting with "Modelled from the spec:".
-/
import Mathlib

/-! # Value Normalizer: `convert.py`

`convert_value` tries, in the fixed order of `GENSON_STRING_TYPES`
(datetime, date, time, timedelta, IPv4Address, IPv6Address, UUID), to parse
the input string with the corresponding pydantic `TypeAdapter` and accepts
the parsed value only when re-serializing it in JSON mode reproduces the
input string byte-for-byte.

The pydantic adapters themselves are external; each is modelled here by an
executable parse/render pair over its canonical string format.  Inputs that
the real (laxer) adapter would parse but whose canonical re-serialization
differs from the input behave identically to a parse failure in
`convert_value` (the round-trip test rejects them and the loop moves on), so
modelling only the canonical forms is faithful for the round-trip loop.
-/

/-- Fold a list of decimal digit characters into the number they denote. -/
def digitsToNat (cs : List Char) : Nat :=
  cs.foldl (fun n c => n * 10 + (c.toNat - 48)) 0

def isLeapYear (y : Nat) : Bool :=
  (y % 4 == 0 && y % 100 != 0) || y % 400 == 0

def daysInMonth (y m : Nat) : Nat :=
  if m == 2 then (if isLeapYear y then 29 else 28)
  else if m == 4 || m == 6 || m == 9 || m == 11 then 30
  else 31

structure DateV where
  year : Nat
  month : Nat
  day : Nat
deriving DecidableEq

structure TimeV where
  hour : Nat
  minute : Nat
  second : Nat
deriving DecidableEq

/-- Modelled from the spec: the canonical `YYYY-MM-DD` date format used by
the downstream type system (pydantic's JSON serialization of `date`). -/
def parseDate10 (cs : List Char) : Option DateV :=
  match cs with
  | [y1, y2, y3, y4, h1, m1, m2, h2, d1, d2] =>
    if (h1 == '-' && h2 == '-'
        && [y1, y2, y3, y4, m1, m2, d1, d2].all Char.isDigit) then
      let y := digitsToNat [y1, y2, y3, y4]
      let mo := digitsToNat [m1, m2]
      let da := digitsToNat [d1, d2]
      if 1 ≤ mo ∧ mo ≤ 12 ∧ 1 ≤ da ∧ da ≤ daysInMonth y mo then
        some { year := y, month := mo, day := da }
      else none
    else none
  | _ => none

/-- Modelled from the spec: the canonical `HH:MM:SS` time format used by
the downstream type system (pydantic's JSON serialization of `time`). -/
def parseTime8 (cs : List Char) : Option TimeV :=
  match cs with
  | [h1, h2, c1, m1, m2, c2, s1, s2] =>
    if (c1 == ':' && c2 == ':'
        && [h1, h2, m1, m2, s1, s2].all Char.isDigit) then
      let h := digitsToNat [h1, h2]
      let mi := digitsToNat [m1, m2]
      let se := digitsToNat [s1, s2]
      if h ≤ 23 ∧ mi ≤ 59 ∧ se ≤ 59 then
        some { hour := h, minute := mi, second := se }
      else none
    else none
  | _ => none

/-- Modelled from the spec: a trailing timezone designator — empty (naive),
`Z` (UTC, offset 0), or `±HH:MM`.  Returns the offset in minutes. -/
def parseTzSuffix (cs : List Char) : Option (Option Int) :=
  match cs with
  | [] => some none
  | ['Z'] => some (some 0)
  | [sg, a, b, c, d, e] =>
    if ((sg == '+' || sg == '-') && c == ':' && [a, b, d, e].all Char.isDigit) then
      let hh := digitsToNat [a, b]
      let mm := digitsToNat [d, e]
      if hh ≤ 23 ∧ mm ≤ 59 then
        let total : Int := ((hh * 60 + mm : Nat) : Int)
        some (some (if sg == '-' then -total else total))
      else none
    else none
  | _ => none

/-- Modelled from the spec: canonical ISO-8601 timestamp
`YYYY-MM-DDTHH:MM:SS` with optional `Z` or `±HH:MM` suffix. -/
def parseDateTimeChars (cs : List Char) : Option (DateV × TimeV × Option Int) :=
  match cs.drop 10 with
  | 'T' :: rest =>
    match parseDate10 (cs.take 10), parseTime8 (rest.take 8),
        parseTzSuffix (rest.drop 8) with
    | some d, some t, some tz => some (d, t, tz)
    | _, _, _ => none
  | _ => none

def natPad2 (n : Nat) : String :=
  (if n < 10 then "0" else "") ++ toString n

def natPad4 (n : Nat) : String :=
  (if n < 10 then "000" else if n < 100 then "00" else if n < 1000 then "0" else "")
    ++ toString n

def renderDate (d : DateV) : String :=
  natPad4 d.year ++ "-" ++ natPad2 d.month ++ "-" ++ natPad2 d.day

def renderTime (t : TimeV) : String :=
  natPad2 t.hour ++ ":" ++ natPad2 t.minute ++ ":" ++ natPad2 t.second

def renderTzSuffix : Option Int → String
  | none => ""
  | some k =>
    if k = 0 then "Z"
    else
      let a := k.natAbs
      (if k < 0 then "-" else "+") ++ natPad2 (a / 60) ++ ":" ++ natPad2 (a % 60)

/-- Modelled from the spec: ISO-8601 durations of the shapes `PnD` and
`PTnS` (the canonical forms pydantic emits for whole-day and whole-second
timedeltas).  Numeric-seconds inputs that pydantic's lax parser would
accept never round-trip, so they are equivalent to a parse failure here. -/
def parseTimedelta (cs : List Char) : Option (Nat × Nat) :=
  match cs with
  | 'P' :: rest =>
    match rest with
    | 'T' :: r2 =>
      let ds := r2.takeWhile Char.isDigit
      let tail := r2.dropWhile Char.isDigit
      if ds ≠ [] ∧ tail = ['S'] then some (0, digitsToNat ds) else none
    | _ =>
      let ds := rest.takeWhile Char.isDigit
      let tail := rest.dropWhile Char.isDigit
      if ds ≠ [] ∧ tail = ['D'] then some (digitsToNat ds, 0) else none
  | _ => none

def renderTimedelta (days seconds : Nat) : String :=
  if days = 0 then "PT" ++ toString seconds ++ "S"
  else if seconds = 0 then "P" ++ toString days ++ "D"
  else "P" ++ toString days ++ "DT" ++ toString seconds ++ "S"

/-- Split a character list on a separator character (like `str.split`). -/
def splitOnChar (sep : Char) : List Char → List (List Char)
  | [] => [[]]
  | c :: rest =>
    match splitOnChar sep rest with
    | [] => if c == sep then [[], []] else [[c]]
    | g :: gs => if c == sep then [] :: g :: gs else (c :: g) :: gs

/-- Modelled from the spec: one decimal octet of a dotted-quad IPv4
address; Python's `ipaddress` rejects empty parts, values above 255 and
leading zeros. -/
def parseOctet (cs : List Char) : Option Nat :=
  if cs ≠ [] ∧ cs.all Char.isDigit ∧ (cs.length = 1 ∨ cs.head? ≠ some '0') then
    let n := digitsToNat cs
    if n ≤ 255 then some n else none
  else none

def parseIPv4 (cs : List Char) : Option (Nat × Nat × Nat × Nat) :=
  match (splitOnChar '.' cs).mapM parseOctet with
  | some [a, b, c, d] => some (a, b, c, d)
  | _ => none

def renderIPv4 (a b c d : Nat) : String :=
  toString a ++ "." ++ toString b ++ "." ++ toString c ++ "." ++ toString d

def isLowerHexDigit (c : Char) : Bool :=
  c.isDigit || (97 ≤ c.toNat && c.toNat ≤ 102)

def isAnyHexDigit (c : Char) : Bool :=
  c.isDigit || (97 ≤ c.toNat && c.toNat ≤ 102) || (65 ≤ c.toNat && c.toNat ≤ 70)

def hexDigitToNat (c : Char) : Nat :=
  if c.isDigit then c.toNat - 48 else c.toNat - 87

def hexToNat (cs : List Char) : Nat :=
  cs.foldl (fun n c => n * 16 + hexDigitToNat c) 0

/-- Modelled from the spec: one hextet of an IPv6 address in canonical
(lowercase, no leading zeros) form; non-canonical spellings never survive
the round-trip check, so only canonical ones are modelled. -/
def parseHexGroup (cs : List Char) : Option Nat :=
  if cs ≠ [] ∧ cs.length ≤ 4 ∧ cs.all isLowerHexDigit
      ∧ (cs.length = 1 ∨ cs.head? ≠ some '0') then
    some (hexToNat cs)
  else none

/-- Modelled from the spec: the uncompressed canonical subset of IPv6
addresses (eight colon-separated hextets). -/
def parseIPv6 (cs : List Char) : Option (List Nat) :=
  match (splitOnChar ':' cs).mapM parseHexGroup with
  | some gs => if gs.length = 8 then some gs else none
  | none => none

def renderIPv6 (gs : List Nat) : String :=
  String.intercalate ":" (gs.map (fun n => String.mk (Nat.toDigits 16 n)))

/-- Modelled from the spec: canonical 8-4-4-4-12 hyphenated UUID form;
stores the lowercased canonical text (pydantic dumps UUIDs lowercased). -/
def parseUUIDChars (cs : List Char) : Option String :=
  match splitOnChar '-' cs with
  | [a, b, c, d, e] =>
    if a.length = 8 ∧ b.length = 4 ∧ c.length = 4 ∧ d.length = 4 ∧ e.length = 12
        ∧ (a ++ b ++ c ++ d ++ e).all isAnyHexDigit then
      some (String.mk (cs.map Char.toLower))
    else none
  | _ => none

/-- The value lattice of `constants.MAIN_TYPE`, restricted to the scalar
forms `convert_value` can produce (its other constructors — containers and
non-string scalars — are never produced or consumed by `convert_value`). -/
inductive MAIN_TYPE where
  | vdatetime (d : DateV) (t : TimeV) (tz : Option Int)
  | vdate (d : DateV)
  | vtime (t : TimeV)
  | vtimedelta (days seconds : Nat)
  | vipv4 (a b c d : Nat)
  | vipv6 (groups : List Nat)
  | vuuid (canonical : String)
  | vstr (s : String)
deriving DecidableEq

/-- One pydantic `TypeAdapter`: `validate_python` on a string input and
`dump_python(mode := json)` on the parsed value. -/
structure StrCodec where
  parse : String → Option MAIN_TYPE
  dump : MAIN_TYPE → String

def datetimeCodec : StrCodec where
  parse s := (parseDateTimeChars s.toList).map (fun x => .vdatetime x.1 x.2.1 x.2.2)
  dump v :=
    match v with
    | .vdatetime d t tz => renderDate d ++ "T" ++ renderTime t ++ renderTzSuffix tz
    | _ => ""

def dateCodec : StrCodec where
  parse s := (parseDate10 s.toList).map .vdate
  dump v :=
    match v with
    | .vdate d => renderDate d
    | _ => ""

def timeCodec : StrCodec where
  parse s := (parseTime8 s.toList).map .vtime
  dump v :=
    match v with
    | .vtime t => renderTime t
    | _ => ""

def timedeltaCodec : StrCodec where
  parse s := (parseTimedelta s.toList).map (fun x => .vtimedelta x.1 x.2)
  dump v :=
    match v with
    | .vtimedelta d s => renderTimedelta d s
    | _ => ""

def ipv4Codec : StrCodec where
  parse s := (parseIPv4 s.toList).map (fun x => .vipv4 x.1 x.2.1 x.2.2.1 x.2.2.2)
  dump v :=
    match v with
    | .vipv4 a b c d => renderIPv4 a b c d
    | _ => ""

def ipv6Codec : StrCodec where
  parse s := (parseIPv6 s.toList).map .vipv6
  dump v :=
    match v with
    | .vipv6 gs => renderIPv6 gs
    | _ => ""

def uuidCodec : StrCodec where
  parse s := (parseUUIDChars s.toList).map .vuuid
  dump v :=
    match v with
    | .vuuid u => u
    | _ => ""

/-- The candidate list of `convert.GENSON_STRING_TYPES`, in source order:
datetime, date, time, timedelta, IPv4Address, IPv6Address, UUID. -/
def GENSON_STRING_TYPES : List StrCodec :=
  [datetimeCodec, dateCodec, timeCodec, timedeltaCodec,
   ipv4Codec, ipv6Codec, uuidCodec]

/-- The loop body of `convert.convert_value`: try each codec in order;
on a parse success whose JSON re-serialization equals the input, return the
parsed value; otherwise continue; return the input string if no candidate
is accepted. -/
def tryConvert : List StrCodec → String → MAIN_TYPE
  | [], s => .vstr s
  | c :: rest, s =>
    match c.parse s with
    | some v => if c.dump v == s then v else tryConvert rest s
    | none => tryConvert rest s

/-- `convert.convert_value`. -/
def convert_value (s : String) : MAIN_TYPE :=
  tryConvert GENSON_STRING_TYPES s

/-- A codec accepts a string when parsing succeeds and the JSON
re-serialization of the parsed value is byte-identical to the input. -/
def acceptsCodec (c : StrCodec) (s : String) : Bool :=
  match c.parse s with
  | some v => c.dump v == s
  | none => false

/-! # Customizer: `customizer.py`

`GAPICustomizer.apply_customizations` parses the generated model source into
a Python AST, builds a map from class name to class node, and applies, in
order: untyped-list repair, field replacements, (type replacements — see
below), serializer insertion and import insertion.

The Python `ast` module is embedded structurally: a module is a list of
top-level items, a class body is a list of statements, and expressions are
the subset of Python expression forms appearing in generated annotations
and defaults.  `ast.parse` of a rule's replacement source is modelled by
the rule carrying the already-parsed statements.

`ReplacementType` and the type-replacement step are referenced by
`__init__.py`, `gapi_client.py` and the test suite but absent from
`customizer.py`; they are modelled from the spec (§3, §4.4 step 3).
-/

mutual
inductive PyExpr where
  | name (id : String)
  | noneConst
  | strConst (s : String)
  | intConst (n : Int)
  | ellipsisConst
  | subscript (value : PyExpr) (slice : PyExpr)
  | call (func : PyExpr) (args : PyArgs)
  | binOr (l r : PyExpr)
inductive PyArgs where
  | nil
  | pos (a : PyExpr) (rest : PyArgs)
  | kw (name : String) (a : PyExpr) (rest : PyArgs)
end

/-- Statements that may occur in a generated class body.  `annAssign`
models `ast.AnnAssign` with a `Name` target (the only shape
`_is_field_node` recognizes); `serializerDef` is the method produced by
`CustomSerializer.create_serializer_ast`; everything else (docstrings,
`model_config = ...` assignments, methods) is `other`. -/
inductive PyStmt where
  | annAssign (target : String) (ann : PyExpr) (value : Option PyExpr)
  | serializerDef (field_name input_type output_type : String) (body : List String)
  | other (tag : String)

/-- Top-level module items: class definitions, import lines, anything else. -/
inductive PyTop where
  | classDef (name : String) (body : List PyStmt)
  | importStmt (line : String)
  | otherTop (tag : String)

abbrev PyModule := List PyTop

/-- `customizer.ReplacementField`; `new_field` carries the statements that
`generate_field_ast` obtains by `ast.parse`-ing the replacement source. -/
structure ReplacementField where
  class_name : String
  field_name : String
  new_field : List PyStmt

/-- Modelled from the spec: the `ReplacementType` customization rule
(class name, field name, new type annotation only) that `__init__.py` and
`gapi_client.py` import from `customizer.py` but which is absent there. -/
structure ReplacementType where
  class_name : String
  field_name : String
  new_type : PyExpr

/-- `customizer.CustomSerializer`. -/
structure CustomSerializer where
  field_name : String
  serializer_code : List String
  input_type : String
  output_type : String
  class_name : Option String

/-- `CustomSerializer.create_serializer_ast`: the `@field_serializer`
decorated method synthesized from the rule. -/
def CustomSerializer.create_serializer_ast (cs : CustomSerializer) : List PyStmt :=
  [.serializerDef cs.field_name cs.input_type cs.output_type cs.serializer_code]

/-- `customizer.GAPICustomizer` (rule container).  `replacement_types` is
modelled from the spec, matching the attribute `gapi_client.GAPIClient._customizer`
assigns. -/
structure GAPICustomizer where
  replacement_fields : List ReplacementField
  replacement_types : List ReplacementType
  custom_serializers : List CustomSerializer
  additional_imports : List String

/-- `GAPICustomizer._is_untyped_list`: a `Subscript` whose value is the
name `list` or `List` and whose slice is the name `Any`. -/
def isUntypedList (e : PyExpr) : Bool :=
  match e with
  | .subscript (.name v) (.name s) => (v == "list" || v == "List") && s == "Any"
  | _ => false

mutual
/-- The mutation performed by `GAPICustomizer._replace_untyped_lists` on an
annotation tree: every untyped-list subscript gets its slice replaced by
the constant `None`; all other nodes are traversed unchanged. -/
def replaceUntypedExpr : PyExpr → PyExpr
  | .name i => .name i
  | .noneConst => .noneConst
  | .strConst s => .strConst s
  | .intConst n => .intConst n
  | .ellipsisConst => .ellipsisConst
  | .subscript v s =>
    if isUntypedList (.subscript v s) then .subscript (replaceUntypedExpr v) .noneConst
    else .subscript (replaceUntypedExpr v) (replaceUntypedExpr s)
  | .call f a => .call (replaceUntypedExpr f) (replaceUntypedArgs a)
  | .binOr l r => .binOr (replaceUntypedExpr l) (replaceUntypedExpr r)
def replaceUntypedArgs : PyArgs → PyArgs
  | .nil => .nil
  | .pos a r => .pos (replaceUntypedExpr a) (replaceUntypedArgs r)
  | .kw n a r => .kw n (replaceUntypedExpr a) (replaceUntypedArgs r)
end

/-- Per-statement effect of `_replace_untyped_lists`: only annotated
assignments with a `Name` target have their annotation rewritten; defaults
and all other statements are untouched. -/
def repairStmt : PyStmt → PyStmt
  | .annAssign t ann v => .annAssign t (replaceUntypedExpr ann) v
  | s => s

/-- `GAPICustomizer._replace_untyped_lists` lifted over the module: the
class-node map holds every top-level class, so every class body is
repaired. -/
def replace_untyped_lists (m : PyModule) : PyModule :=
  m.map (fun t =>
    match t with
    | .classDef n b => .classDef n (b.map repairStmt)
    | t => t)

/-- `GAPICustomizer._is_field_node`. -/
def isFieldNode (s : PyStmt) (field_name : String) : Bool :=
  match s with
  | .annAssign t _ _ => t == field_name
  | _ => false

/-- `GAPICustomizer._has_field`. -/
def has_field (body : List PyStmt) (field_name : String) : Bool :=
  body.any (fun s => isFieldNode s field_name)

def isClassNamed (t : PyTop) (cn : String) : Bool :=
  match t with
  | .classDef n _ => n == cn
  | _ => false

/-- Apply `f` to the body of the class named `cn`; error with the source's
message when no such class exists.  (Generated modules have distinct class
names, so acting on the first match coincides with the source's
name-to-node dict.) -/
def updateClassBody (cn : String) (f : List PyStmt → Except String (List PyStmt)) :
    PyModule → Except String PyModule
  | [] => .error ("Class " ++ cn ++ " not found in generated models")
  | t :: rest =>
    match t with
    | .classDef n b =>
      if n = cn then
        match f b with
        | .error e => .error e
        | .ok b2 => .ok (.classDef n b2 :: rest)
      else
        match updateClassBody cn f rest with
        | .error e => .error e
        | .ok rest2 => .ok (.classDef n b :: rest2)
    | t =>
      match updateClassBody cn f rest with
      | .error e => .error e
      | .ok rest2 => .ok (t :: rest2)

/-- The body-level splice of `_apply_replacement_fields`: replace the first
statement matching the field name with the rule's statements; `none` when
the field is absent. -/
def replaceFieldInBody (fn : String) (new : List PyStmt) :
    List PyStmt → Option (List PyStmt)
  | [] => none
  | s :: rest =>
    if isFieldNode s fn then some (new ++ rest)
    else (replaceFieldInBody fn new rest).map (fun r => s :: r)

def applyReplacementField (r : ReplacementField) (m : PyModule) :
    Except String PyModule :=
  updateClassBody r.class_name (fun b =>
    match replaceFieldInBody r.field_name r.new_field b with
    | some b2 => .ok b2
    | none => .error ("Field " ++ r.field_name ++ " not found in class " ++ r.class_name)) m

/-- `GAPICustomizer._apply_replacement_fields` (sequential over the rules). -/
def apply_replacement_fields : List ReplacementField → PyModule → Except String PyModule
  | [], m => .ok m
  | r :: rest, m =>
    match applyReplacementField r m with
    | .error e => .error e
    | .ok m2 => apply_replacement_fields rest m2

/-- Modelled from the spec: locate the first statement declaring the field
and replace only its type annotation, keeping the default value (alias /
metadata) untouched. -/
def replaceTypeInBody (fn : String) (newT : PyExpr) :
    List PyStmt → Option (List PyStmt)
  | [] => none
  | .annAssign t ann v :: rest =>
    if t = fn then some (.annAssign t newT v :: rest)
    else (replaceTypeInBody fn newT rest).map (fun r => .annAssign t ann v :: r)
  | s :: rest => (replaceTypeInBody fn newT rest).map (fun r => s :: r)

def applyReplacementType (r : ReplacementType) (m : PyModule) :
    Except String PyModule :=
  updateClassBody r.class_name (fun b =>
    match replaceTypeInBody r.field_name r.new_type b with
    | some b2 => .ok b2
    | none => .error ("Field " ++ r.field_name ++ " not found in class " ++ r.class_name)) m

/-- Modelled from the spec: step 3 of §4.4 — type replacements, applied
after field replacements and before serializer insertion. -/
def apply_replacement_types : List ReplacementType → PyModule → Except String PyModule
  | [], m => .ok m
  | r :: rest, m =>
    match applyReplacementType r m with
    | .error e => .error e
    | .ok m2 => apply_replacement_types rest m2

def applyCustomSerializer (cs : CustomSerializer) (m : PyModule) :
    Except String PyModule :=
  match cs.class_name with
  | some cn => updateClassBody cn (fun b => .ok (b ++ cs.create_serializer_ast)) m
  | none =>
    .ok (m.map (fun t =>
      match t with
      | .classDef n b =>
        .classDef n (if has_field b cs.field_name then b ++ cs.create_serializer_ast else b)
      | t => t))

/-- `GAPICustomizer._apply_custom_serializers`. -/
def apply_custom_serializers : List CustomSerializer → PyModule → Except String PyModule
  | [], m => .ok m
  | cs :: rest, m =>
    match applyCustomSerializer cs m with
    | .error e => .error e
    | .ok m2 => apply_custom_serializers rest m2

/-- `GAPICustomizer._apply_additional_imports`: the i-th import line is
inserted at index i, i.e. the lines end up prepended in registration
order. -/
def apply_additional_imports (imports : List String) (m : PyModule) : PyModule :=
  imports.map PyTop.importStmt ++ m

/-- `GAPICustomizer.apply_customizations`: untyped-list repair, then field
replacements, then (spec-modelled) type replacements, then serializer
insertion, then import insertion (adding the `field_serializer` import when
any serializer rule exists). -/
def GAPICustomizer.apply_customizations (c : GAPICustomizer) (m : PyModule) :
    Except String PyModule :=
  let m1 := replace_untyped_lists m
  match apply_replacement_fields c.replacement_fields m1 with
  | .error e => .error e
  | .ok m2 =>
    match apply_replacement_types c.replacement_types m2 with
    | .error e => .error e
    | .ok m3 =>
      match apply_custom_serializers c.custom_serializers m3 with
      | .error e => .error e
      | .ok m4 =>
        let imports := c.additional_imports ++
          (if c.custom_serializers.isEmpty then []
           else ["from pydantic import field_serializer"])
        .ok (apply_additional_imports imports m4)

/-! # Model Emitter: `gapi.py`

`format_with_ruff` shells out to `uv run ruff check --fix` and then
`uv run ruff format`, after first confirming the `uv` executable exists;
an empty stdout from either invocation is a fatal `RuntimeError`, a missing
`uv` a `FileNotFoundError`.  `GAPI.get_pydantic_model_content` (cache-miss
path) runs the external generator, applies the customizer, formats,
prepends the `# ruff: noqa` header and formats again.

The external processes are parameterized: each ruff invocation is a
function from input text to a (stdout, stderr) pair.
-/

structure RuffEnv where
  uvExists : Bool
  ruff_check : String → String × String
  ruff_format : String → String × String

inductive ToolError where
  | uvMissing (msg : String)
  | ruffFailed (stderr : String)
deriving DecidableEq

/-- `gapi._confirm_uv_exists`. -/
def confirm_uv_exists (env : RuffEnv) : Except ToolError Unit :=
  if env.uvExists then .ok () else .error (.uvMissing "uv was not found")

/-- `gapi.format_with_ruff`: confirm `uv` exists, run `ruff check --fix`,
fail on empty stdout, run `ruff format` on the fixed text, fail on empty
stdout, and return the formatted text. -/
def format_with_ruff (env : RuffEnv) (content : String) : Except ToolError String :=
  match confirm_uv_exists env with
  | .error e => .error e
  | .ok _ =>
    let check_result := env.ruff_check content
    if check_result.1 = "" then
      .error (.ruffFailed ("Ruff formatting failed with error: " ++ check_result.2))
    else
      let format_result := env.ruff_format check_result.1
      if format_result.1 = "" then
        .error (.ruffFailed ("Ruff formatting failed with error: " ++ format_result.2))
      else .ok format_result.1

/-- `gapi.build_ruff_noqa_line`. -/
def build_ruff_noqa_line : String := "# ruff: noqa: D100, D101, D102\n"

inductive GenError where
  | customization (msg : String)
  | tool (e : ToolError)
deriving DecidableEq

/-- Environment of `GAPI.get_pydantic_model_content`: `generated` is the
datamodel-code-generator output for the current schema and `customize` the
customizer run (which may raise a customization error). -/
structure GenEnv where
  ruff : RuffEnv
  generated : String
  customize : String → Except String String

/-- `GAPI.get_pydantic_model_content` (cache-miss path): generator output →
customizer → `format_with_ruff` → prepend the noqa header →
`format_with_ruff` again. -/
def get_pydantic_model_content (env : GenEnv) : Except GenError String :=
  match env.customize env.generated with
  | .error m => .error (.customization m)
  | .ok c1 =>
    match format_with_ruff env.ruff c1 with
    | .error e => .error (.tool e)
    | .ok c2 =>
      match format_with_ruff env.ruff (build_ruff_noqa_line ++ c2) with
      | .error e => .error (.tool e)
      | .ok c4 => .ok c4

/-! # Redundant-sample pruning: `GAPIClient.remove_redundant_json_files`

The sample files (sorted by name, i.e. oldest first) are reversed so the
newest file is inspected first; `complete_schema` is the `degenson`
builder fed every file; then an index walks the working list, deleting the
file at the index exactly when the builder fed every other remaining file
equals `complete_schema`, and advancing only when no deletion occurred.

The external `degenson.SchemaBuilder` is abstract: a state type `S` with a
fresh state `empty`, an `add_object_from_file` step `add` (which includes
the `convert_input_data` normalization the `GAPI` wrapper applies), and the
structural equality `==` the source compares builders with (spec §4.2),
modelled as decidable equality.
-/

/-- Feeding a `GAPI()` builder every file of a list in order. -/
def mergeAll {J S : Type} (add : S → J → S) (empty : S) (files : List J) : S :=
  files.foldl add empty

/-- The index loop of `remove_redundant_json_files`: `kept` holds the
entries before the index (already confirmed non-redundant), `rest` the
entries from the index on.  The file at the index is deleted exactly when
merging all other remaining files reproduces `full`. -/
def pruneAux {J S : Type} [DecidableEq S] (add : S → J → S) (empty : S) (full : S) :
    List J → List J → List J
  | kept, [] => kept
  | kept, x :: rest =>
    if mergeAll add empty (kept ++ rest) = full then
      pruneAux add empty full kept rest
    else
      pruneAux add empty full (kept ++ [x]) rest

/-- `GAPIClient.remove_redundant_json_files`, returning the list of sample
files that survive (in newest-first processing order). -/
def remove_redundant_json_files {J S : Type} [DecidableEq S]
    (add : S → J → S) (empty : S) (files : List J) : List J :=
  let input_files := files.reverse
  pruneAux add empty (mergeAll add empty input_files) [] input_files

/-! # Client Repair State Machine: `gapi_client.py`

`GAPIClient` is embedded with explicit state passing.  The per-consumer
state holds the in-process response model, the sample directory (a map
from file name to JSON content), the persisted schema file, the persisted
model source file, and the debug artifact pair written by
`_save_debug_files`.

Wall-clock reads (`datetime.now` in `_save_new_json_file`) are passed in
as explicit microsecond counts; `strftime("%Y-%m-%dT%H_%M_%S.%f")[:-3]`
truncates to millisecond precision and is injective per millisecond, so a
file name is modelled as the millisecond count itself.

External operations (pydantic validation, `dump_response` serialization,
the degenson builder, code generation and module reload) are collected in
a `ClientEnv`.  Observable side effects are additionally recorded in a
`ClientEvent` trace.  `json.dumps`/`json.loads` round-tripping of a sample
through its file is modelled as the identity.
-/

/-- The files of one directory: name (millisecond timestamp) → content. -/
abbrev FileDir (J : Type) := List (Nat × J)

/-- `Path.write_text`: replace the content when the name exists, create the
file otherwise. -/
def writeFileEntry {J : Type} (dir : FileDir J) (name : Nat) (content : J) : FileDir J :=
  if dir.any (fun p => p.1 == name) then
    dir.map (fun p => if p.1 == name then (name, content) else p)
  else dir ++ [(name, content)]

/-- Per-consumer storage and in-process state. -/
structure ClientState (J M D Src : Type) where
  responseModel : M
  sampleDir : FileDir J
  schemaFile : Option D
  modelFile : Option Src
  debugFiles : Option (J × J)
deriving DecidableEq

/-- External collaborators of `GAPIClient`: `validate` is
`_response_model.model_validate` (raising `ValidationError` on failure),
`dump` is `dump_response`, the builder operations come from `degenson` via
`GAPI` (with `convert_input_data` folded into `addObject`), `generate` is
schema → customized and formatted model source, and `load` is the
`importlib.reload` that turns the written source into the in-process
model. -/
structure ClientEnv (J T M D Src S E : Type) where
  validate : M → J → Except E T
  dump : T → J
  newBuilder : S
  addSchema : S → D → S
  addObject : S → J → S
  toSchema : S → D
  generate : D → Src
  load : Src → M

/-- Observable side effects of one `parse` call. -/
inductive ClientEvent (J : Type) where
  | savedSample (name : Nat) (data : J)
  | rebuilt
  | reloaded
  | savedDebug (orig dumped : J)
deriving DecidableEq

def isRebuildEvent {J : Type} : ClientEvent J → Bool
  | .rebuilt => true
  | _ => false

def countRebuilds {J : Type} (tr : List (ClientEvent J)) : Nat :=
  (tr.filter isRebuildEvent).length

/-- Result of `GAPIClient.parse`: the validated instance, a propagated
pydantic `ValidationError`, or the `ValueError` raised on a round-trip
mismatch. -/
inductive ParseResult (E T : Type) where
  | ok (t : T)
  | vErr (e : E)
  | roundTripErr
deriving DecidableEq

section Client

variable {J T M D Src S E : Type}

/-- `GAPIClient._save_new_json_file`: derive the file name from the wall
clock truncated to milliseconds and write the data there. -/
def save_new_json_file (st : ClientState J M D Src) (nowUs : Nat) (data : J) :
    Nat × ClientState J M D Src :=
  let name := nowUs / 1000
  (name, { st with sampleDir := writeFileEntry st.sampleDir name data })

/-- `GAPIClient._update_model`: fresh builder, seeded from the persisted
schema file when it exists, merged with the new sample (re-read from its
just-written file, i.e. the sample data itself), then the schema and model
files are rewritten and the in-process model reloaded. -/
def update_model (env : ClientEnv J T M D Src S E) (st : ClientState J M D Src)
    (data : J) : ClientState J M D Src :=
  let seeded :=
    match st.schemaFile with
    | some d => env.addSchema env.newBuilder d
    | none => env.newBuilder
  let merged := env.addObject seeded data
  let newSchema := env.toSchema merged
  let newSrc := env.generate newSchema
  { st with
      schemaFile := some newSchema
      modelFile := some newSrc
      responseModel := env.load newSrc }

/-- `GAPIClient._save_debug_files`: save the original data as a fresh
sample file, then write the original/re-serialized pair to the debug
location. -/
def save_debug_files (st : ClientState J M D Src) (data dumped : J) (nowUs : Nat) :
    ClientState J M D Src :=
  let st1 := (save_new_json_file st nowUs data).2
  { st1 with debugFiles := some (data, dumped) }

/-- The integrity check at the end of `_parse_and_validate`: dump the
validated instance; on mismatch with the original input, persist debug
artifacts and raise `ValueError`; on match, return the instance. -/
def round_trip_check [DecidableEq J] (env : ClientEnv J T M D Src S E)
    (st : ClientState J M D Src) (data : J) (parsed : T) (nowDbg : Nat)
    (evs : List (ClientEvent J)) :
    ParseResult E T × ClientState J M D Src × List (ClientEvent J) :=
  let dumped := env.dump parsed
  if dumped = data then (.ok parsed, st, evs)
  else
    (.roundTripErr, save_debug_files st data dumped nowDbg,
      evs ++ [.savedSample (nowDbg / 1000) data, .savedDebug data dumped])

/-- `GAPIClient._parse_and_validate`: validate; on `ValidationError`,
persist the sample, rebuild and reload the model, and validate once more
(a second failure propagates); any success is followed by the round-trip
integrity check. -/
def parse_and_validate [DecidableEq J] (env : ClientEnv J T M D Src S E)
    (st : ClientState J M D Src) (data : J) (now nowDbg : Nat) :
    ParseResult E T × ClientState J M D Src × List (ClientEvent J) :=
  match env.validate st.responseModel data with
  | .ok parsed => round_trip_check env st data parsed nowDbg []
  | .error _ =>
    let saved := save_new_json_file st now data
    let st2 := update_model env saved.2 data
    match env.validate st2.responseModel data with
    | .error e2 =>
      (.vErr e2, st2, [.savedSample saved.1 data, .rebuilt, .reloaded])
    | .ok parsed =>
      round_trip_check env st2 data parsed nowDbg
        [.savedSample saved.1 data, .rebuilt, .reloaded]

/-- `GAPIClient.parse`: with `update_model := true`, `_parse_and_validate`;
otherwise a plain `model_validate` whose outcome is returned as-is. -/
def parse [DecidableEq J] (env : ClientEnv J T M D Src S E)
    (st : ClientState J M D Src) (data : J) (update_flag : Bool) (now nowDbg : Nat) :
    ParseResult E T × ClientState J M D Src × List (ClientEvent J) :=
  if update_flag then parse_and_validate env st data now nowDbg
  else
    match env.validate st.responseModel data with
    | .ok t => (.ok t, st, [])
    | .error e => (.vErr e, st, [])

end Client

/-! ## Concrete instantiations used by witnesses and counterexamples -/

/-- A consumer whose validation always fails with error 7. -/
def envFail : ClientEnv Nat Nat Nat Nat Nat Nat Nat where
  validate := fun _ _ => .error 7
  dump := fun t => t
  newBuilder := 0
  addSchema := fun b d => b + d
  addObject := fun b j => b + j + 1
  toSchema := fun b => b
  generate := fun d => d
  load := fun s => s

/-- A consumer whose initial model (0) rejects everything with error 9 and
whose rebuilt model (1) validates `d` to `d + 1`. -/
def envRebuild : ClientEnv Nat Nat Nat Nat Nat Nat Nat where
  validate := fun m d => if m = 0 then .error 9 else .ok (d + 1)
  dump := fun t => t
  newBuilder := 0
  addSchema := fun b d => b + d
  addObject := fun b j => b + j + 1
  toSchema := fun b => b
  generate := fun d => d
  load := fun _ => 1

/-- A consumer whose model validates `d` to `d + 1` on the first attempt;
`dump` is the identity, so the re-serialization never matches the input. -/
def envOkMismatch : ClientEnv Nat Nat Nat Nat Nat Nat Nat where
  validate := fun _ d => .ok (d + 1)
  dump := fun t => t
  newBuilder := 0
  addSchema := fun b d => b + d
  addObject := fun b j => b + j + 1
  toSchema := fun b => b
  generate := fun d => d
  load := fun s => s

/-- A consumer whose model validates `d` to `d` itself, so the round-trip
check always matches. -/
def envOkMatch : ClientEnv Nat Nat Nat Nat Nat Nat Nat where
  validate := fun _ d => .ok d
  dump := fun t => t
  newBuilder := 0
  addSchema := fun b d => b + d
  addObject := fun b j => b + j + 1
  toSchema := fun b => b
  generate := fun d => d
  load := fun s => s

/-- A brand-new consumer: empty sample directory, no schema file. -/
def st0 : ClientState Nat Nat Nat Nat where
  responseModel := 0
  sampleDir := []
  schemaFile := none
  modelFile := none
  debugFiles := none

/-- Ruff environment whose two stages append markers to their input. -/
def ruffOk : RuffEnv where
  uvExists := true
  ruff_check := fun s => (s ++ "c", "")
  ruff_format := fun s => (s ++ "f", "")

/-- Generation environment over `ruffOk` with a marker customizer. -/
def genEnv0 : GenEnv where
  ruff := ruffOk
  generated := "g"
  customize := fun s => .ok (s ++ "x")

/-- The spec's §8 scenario module: `class Model` with
`x: str = Field(alias="X")`. -/
def specClassBody : List PyStmt :=
  [.other "model_config",
   .annAssign "x" (.name "str")
     (some (.call (.name "Field") (.kw "alias" (.strConst "X") .nil)))]

def specModule : PyModule := [.classDef "Model" specClassBody]

/-- A generated class with an untyped-list field, as produced from an
empty-list sample. -/
def untypedBody : List PyStmt :=
  [.annAssign "items" (.subscript (.name "list") (.name "Any")) none]

def untypedModule : PyModule := [.classDef "Items" untypedBody]

/-! # Theorems -/

/-! ## Pruning (claim C2) -/

/-- Loop invariant of the pruning walk: if the merge of the current working
list equals `full`, every transformation step preserves that equality, so
the merge of the surviving list still equals `full`. -/
theorem pruneAux_merge {J S : Type} [DecidableEq S] (add : S → J → S) (empty full : S) :
    ∀ (rest kept : List J), mergeAll add empty (kept ++ rest) = full →
      mergeAll add empty (pruneAux add empty full kept rest) = full := by
  intro rest
  induction rest with
  | nil =>
    intro kept h
    simpa [pruneAux] using h
  | cons x rest ih =>
    intro kept h
    by_cases hc : mergeAll add empty (kept ++ rest) = full
    · simpa [pruneAux, hc] using ih kept hc
    · have h2 : mergeAll add empty ((kept ++ [x]) ++ rest) = full := by
        simpa [List.append_assoc] using h
      simpa [pruneAux, hc] using ih (kept ++ [x]) h2

/-- The pruning walk only ever deletes entries from the working list. -/
theorem pruneAux_sublist {J S : Type} [DecidableEq S] (add : S → J → S) (empty full : S) :
    ∀ (rest kept : List J), (pruneAux add empty full kept rest).Sublist (kept ++ rest) := by
  intro rest
  induction rest with
  | nil =>
    intro kept
    simp [pruneAux]
  | cons x rest ih =>
    intro kept
    by_cases hc : mergeAll add empty (kept ++ rest) = full
    · simp only [pruneAux, if_pos hc]
      exact (ih kept).trans (List.Sublist.append_left (List.sublist_cons_self x rest) kept)
    · simp only [pruneAux, if_neg hc]
      have h := ih (kept ++ [x])
      simpa [List.append_assoc] using h

/-- C2: `remove_redundant_json_files` walks the persisted sample list
newest-first and deletes the sample at the current index exactly when the
merge of all other remaining samples equals the merge of the full original
set (advancing only when it does not); the survivors are a subsequence of
the input, and merging them yields the same accumulator as merging the full
original (newest-first) sample list. -/
theorem remove_redundant_json_files_spec {J S : Type} [DecidableEq S]
    (add : S → J → S) (empty : S) (files : List J) :
    mergeAll add empty (remove_redundant_json_files add empty files)
        = mergeAll add empty files.reverse
    ∧ (remove_redundant_json_files add empty files).Sublist files.reverse
    ∧ (∀ (full : S) (kept rest : List J) (x : J),
        pruneAux add empty full kept (x :: rest)
          = if mergeAll add empty (kept ++ rest) = full
            then pruneAux add empty full kept rest
            else pruneAux add empty full (kept ++ [x]) rest) := by
  refine ⟨?_, ?_, ?_⟩
  · exact pruneAux_merge add empty (mergeAll add empty files.reverse) files.reverse [] rfl
  · simpa using pruneAux_sublist add empty (mergeAll add empty files.reverse) files.reverse []
  · intro full kept rest x
    simp [pruneAux]

/-! ## Client repair state machine (claims C1, C3, C6, C10) -/

/-- C1: when validation of `data` against the loaded model fails, `parse`
persists `data` as a new sample file, rebuilds schema and model exactly
once — seeding a fresh accumulator from the persisted schema document when
one exists and merging in the new sample — reloads the in-process model
and re-validates; a second validation failure propagates its error to the
caller with no further rebuild or retry. -/
theorem parse_second_failure_propagates {J T M D Src S E : Type} [DecidableEq J]
    (env : ClientEnv J T M D Src S E) (st : ClientState J M D Src)
    (data : J) (now nowDbg : Nat) (e1 e2 : E)
    (h1 : env.validate st.responseModel data = .error e1)
    (h2 : env.validate
        (update_model env (save_new_json_file st now data).2 data).responseModel data
      = .error e2) :
    parse env st data true now nowDbg
      = (.vErr e2, update_model env (save_new_json_file st now data).2 data,
          [.savedSample (now / 1000) data, .rebuilt, .reloaded])
    ∧ (update_model env (save_new_json_file st now data).2 data).responseModel
        = env.load (env.generate (env.toSchema (env.addObject
            (match st.schemaFile with
             | some d => env.addSchema env.newBuilder d
             | none => env.newBuilder) data)))
    ∧ (save_new_json_file st now data).2.sampleDir
        = writeFileEntry st.sampleDir (now / 1000) data
    ∧ countRebuilds ([.savedSample (now / 1000) data, .rebuilt, .reloaded] :
        List (ClientEvent J)) = 1 := by
  refine ⟨?_, ?_, ?_, ?_⟩
  · simp only [parse, if_true]
    simp [parse_and_validate, h1, h2]
    simp [save_new_json_file]
  · rfl
  · rfl
  · rfl

/-- Witness for C1 at a concrete consumer whose validation always fails. -/
theorem parse_second_failure_propagates_witness :
    parse envFail st0 5 true 1000 2000
      = (.vErr 7, update_model envFail (save_new_json_file st0 1000 5).2 5,
          [.savedSample 1 5, .rebuilt, .reloaded])
    ∧ (update_model envFail (save_new_json_file st0 1000 5).2 5).responseModel
        = envFail.load (envFail.generate (envFail.toSchema (envFail.addObject
            (match st0.schemaFile with
             | some d => envFail.addSchema envFail.newBuilder d
             | none => envFail.newBuilder) 5)))
    ∧ (save_new_json_file st0 1000 5).2.sampleDir
        = writeFileEntry st0.sampleDir 1 5
    ∧ countRebuilds ([.savedSample 1 5, .rebuilt, .reloaded] :
        List (ClientEvent Nat)) = 1 :=
  parse_second_failure_propagates envFail st0 5 1000 2000 7 7 rfl rfl

/-- C3: when the re-validation against the freshly rebuilt and reloaded
model succeeds, the validated instance is re-serialized and compared with
the original input; on mismatch both forms are persisted to the debug
location and the fatal round-trip error is raised (with no further
rebuild); on match the validated instance is returned. -/
theorem parse_rebuild_success_round_trip {J T M D Src S E : Type} [DecidableEq J]
    (env : ClientEnv J T M D Src S E) (st : ClientState J M D Src)
    (data : J) (now nowDbg : Nat) (e1 : E) (t : T)
    (h1 : env.validate st.responseModel data = .error e1)
    (h2 : env.validate
        (update_model env (save_new_json_file st now data).2 data).responseModel data
      = .ok t) :
    (env.dump t = data →
      parse env st data true now nowDbg
        = (.ok t, update_model env (save_new_json_file st now data).2 data,
            [.savedSample (now / 1000) data, .rebuilt, .reloaded]))
    ∧ (env.dump t ≠ data →
      parse env st data true now nowDbg
        = (.roundTripErr,
            save_debug_files (update_model env (save_new_json_file st now data).2 data)
              data (env.dump t) nowDbg,
            [.savedSample (now / 1000) data, .rebuilt, .reloaded,
             .savedSample (nowDbg / 1000) data, .savedDebug data (env.dump t)])
      ∧ (save_debug_files (update_model env (save_new_json_file st now data).2 data)
            data (env.dump t) nowDbg).debugFiles
          = some (data, env.dump t)) := by
  constructor
  · intro hmatch
    simp [parse, parse_and_validate, h1, h2, round_trip_check, hmatch]
    simp [save_new_json_file]
  · intro hmis
    refine ⟨?_, ?_⟩
    · simp [parse, parse_and_validate, h1, h2, round_trip_check, hmis]
      simp [save_new_json_file]
    · rfl

/-- Witness for C3 at a concrete consumer whose rebuilt model accepts the
data but whose re-serialization differs from the input. -/
theorem parse_rebuild_success_round_trip_witness :
    (envRebuild.dump 6 = 5 →
      parse envRebuild st0 5 true 1000 2000
        = (.ok 6, update_model envRebuild (save_new_json_file st0 1000 5).2 5,
            [.savedSample 1 5, .rebuilt, .reloaded]))
    ∧ (envRebuild.dump 6 ≠ 5 →
      parse envRebuild st0 5 true 1000 2000
        = (.roundTripErr,
            save_debug_files (update_model envRebuild (save_new_json_file st0 1000 5).2 5)
              5 (envRebuild.dump 6) 2000,
            [.savedSample 1 5, .rebuilt, .reloaded,
             .savedSample 2 5, .savedDebug 5 (envRebuild.dump 6)])
      ∧ (save_debug_files (update_model envRebuild (save_new_json_file st0 1000 5).2 5)
            5 (envRebuild.dump 6) 2000).debugFiles
          = some (5, envRebuild.dump 6)) :=
  parse_rebuild_success_round_trip envRebuild st0 5 1000 2000 9 6 rfl rfl

/-- Counterexample to C6: a first-attempt validation success does not by
itself make `parse` emit the validated instance — when the re-serialized
instance differs from the input, `parse` raises the round-trip error and
even persists a sample file (via `_save_debug_files`), contradicting both
the "emits the validated instance" and the "no sample persisted" parts. -/
theorem parse_first_success_not_always_emitted :
    envOkMismatch.validate st0.responseModel 5 = .ok 6
    ∧ (parse envOkMismatch st0 5 true 1000 2000).1 ≠ .ok 6
    ∧ (parse envOkMismatch st0 5 true 1000 2000).1 = .roundTripErr
    ∧ (parse envOkMismatch st0 5 true 1000 2000).2.1.sampleDir ≠ st0.sampleDir :=
  ⟨rfl, by decide, by decide, by decide⟩

/-- C6 (amended): when the first validation succeeds and the round-trip
re-serialization equals the input, `parse` emits the validated instance
with the state unchanged — no sample persisted, no rebuild performed, no
event emitted. -/
theorem parse_first_success_round_trip_match {J T M D Src S E : Type} [DecidableEq J]
    (env : ClientEnv J T M D Src S E) (st : ClientState J M D Src)
    (data : J) (now nowDbg : Nat) (t : T)
    (h1 : env.validate st.responseModel data = .ok t)
    (h2 : env.dump t = data) :
    parse env st data true now nowDbg = (.ok t, st, []) := by
  simp [parse, parse_and_validate, h1, round_trip_check, h2]

/-- Witness for the amended C6. -/
theorem parse_first_success_round_trip_match_witness :
    parse envOkMatch st0 5 true 1000 2000 = (.ok 5, st0, []) :=
  parse_first_success_round_trip_match envOkMatch st0 5 1000 2000 5 rfl rfl

/-- C10: `parse` with `update_model := False` performs plain validation
only: the outcome of `model_validate` is returned as-is, the state is
unchanged and nothing is persisted, rebuilt or reloaded; in particular a
validation failure propagates immediately and a success skips the
round-trip integrity check. -/
theorem parse_no_update_plain_validation {J T M D Src S E : Type} [DecidableEq J]
    (env : ClientEnv J T M D Src S E) (st : ClientState J M D Src)
    (data : J) (now nowDbg : Nat) :
    parse env st data false now nowDbg
      = (match env.validate st.responseModel data with
         | .ok t => (.ok t, st, ([] : List (ClientEvent J)))
         | .error e => (.vErr e, st, []))
    ∧ (∀ t, env.validate st.responseModel data = .ok t →
        (parse env st data false now nowDbg).1 = .ok t)
    ∧ (∀ e, env.validate st.responseModel data = .error e →
        parse env st data false now nowDbg = (.vErr e, st, [])) := by
  refine ⟨?_, ?_, ?_⟩
  · rfl
  · intro t ht
    simp [parse, ht]
  · intro e he
    simp [parse, he]

/-- Witness for C10: the validated instance is returned even though its
re-serialization (6) differs from the input (5) — the integrity check is
not performed on this path. -/
theorem parse_no_update_plain_validation_witness :
    (parse envOkMismatch st0 5 false 1000 2000).1 = .ok 6 :=
  (parse_no_update_plain_validation envOkMismatch st0 5 1000 2000).2.1 6 rfl

/-! ## Sample persistence (claim C9) -/

/-- Writing a file puts the written entry into the directory. -/
theorem writeFileEntry_mem_self {J : Type} (dir : FileDir J) (n : Nat) (c : J) :
    (n, c) ∈ writeFileEntry dir n c := by
  unfold writeFileEntry
  by_cases h : dir.any (fun p => p.1 == n)
  · simp only [h, if_true]
    obtain ⟨p, hp, hpn⟩ := List.any_eq_true.mp h
    refine List.mem_map.mpr ⟨p, hp, ?_⟩
    simp [hpn]
  · simp [h]

/-- Writing under one name leaves files with a different name untouched. -/
theorem writeFileEntry_preserves {J : Type} (dir : FileDir J) (n m : Nat) (c d : J)
    (hmn : m ≠ n) (hmem : (m, d) ∈ dir) : (m, d) ∈ writeFileEntry dir n c := by
  unfold writeFileEntry
  by_cases h : dir.any (fun p => p.1 == n)
  · simp only [h, if_true]
    refine List.mem_map.mpr ⟨(m, d), hmem, ?_⟩
    simp [hmn]
  · simp only [h, if_false, Bool.false_eq_true]
    exact List.mem_append_left _ hmem

/-- Counterexample to C9: sample file names carry only millisecond
precision (`strftime(...%f)[:-3]`) and `write_text` replaces existing
content, so two samples persisted 0.5 ms apart (microsecond clocks 1000
and 1500) get the same file name and the second persists over the first —
the earlier sample's content is gone from the directory. -/
theorem save_new_json_file_overwrites :
    ((save_new_json_file st0 1000 0).2).sampleDir = [(1, 0)]
    ∧ ((save_new_json_file (save_new_json_file st0 1000 0).2 1500 1).2).sampleDir
        = [(1, 1)]
    ∧ (1, 0) ∉ ((save_new_json_file (save_new_json_file st0 1000 0).2 1500 1).2).sampleDir := by
  refine ⟨rfl, rfl, by decide⟩

/-- C9 (amended): persisted samples are only collision-free per
millisecond — when two saves happen in distinct milliseconds the file
names differ and the second save never overwrites the first sample, which
stays in the directory unchanged; saves within the same millisecond share
a file name and the later one replaces the earlier file. -/
theorem save_new_json_file_distinct_ms_no_overwrite {J M D Src : Type}
    (st : ClientState J M D Src) (t1 t2 : Nat) (d1 d2 : J)
    (h : t1 / 1000 ≠ t2 / 1000) :
    (t1 / 1000, d1) ∈ ((save_new_json_file st t1 d1).2).sampleDir
    ∧ (t1 / 1000, d1) ∈ ((save_new_json_file (save_new_json_file st t1 d1).2 t2 d2).2).sampleDir
    ∧ (t2 / 1000, d2) ∈ ((save_new_json_file (save_new_json_file st t1 d1).2 t2 d2).2).sampleDir := by
  refine ⟨?_, ?_, ?_⟩
  · exact writeFileEntry_mem_self st.sampleDir (t1 / 1000) d1
  · exact writeFileEntry_preserves _ (t2 / 1000) (t1 / 1000) d2 d1 h
      (writeFileEntry_mem_self st.sampleDir (t1 / 1000) d1)
  · exact writeFileEntry_mem_self _ (t2 / 1000) d2

/-- Witness for the amended C9 at saves 1.5 ms apart. -/
theorem save_new_json_file_distinct_ms_no_overwrite_witness :
    (1, 0) ∈ ((save_new_json_file st0 1000 0).2).sampleDir
    ∧ (1, 0) ∈ ((save_new_json_file (save_new_json_file st0 1000 0).2 2500 1).2).sampleDir
    ∧ (2, 1) ∈ ((save_new_json_file (save_new_json_file st0 1000 0).2 2500 1).2).sampleDir :=
  save_new_json_file_distinct_ms_no_overwrite st0 1000 2500 0 1 (by decide)

/-! ## Value normalizer (claim C4) -/

/-- C4: `convert_value` tries the candidates in the fixed priority order
timestamp, date, time, duration, IPv4, IPv6, UUID; a candidate is accepted
exactly when parsing succeeds and re-serializing the parsed value is
byte-identical to the input; the first accepted candidate's value is
returned, and the input string is returned unchanged when no candidate is
accepted — in particular the plain numeric strings "123" and "123.45"
remain strings. -/
theorem convert_value_spec :
    GENSON_STRING_TYPES
      = [datetimeCodec, dateCodec, timeCodec, timedeltaCodec,
         ipv4Codec, ipv6Codec, uuidCodec]
    ∧ (∀ (cs : List StrCodec) (s : String),
        tryConvert cs s
          = match cs.find? (fun c => acceptsCodec c s) with
            | some c => (c.parse s).getD (.vstr s)
            | none => .vstr s)
    ∧ convert_value "123" = .vstr "123"
    ∧ convert_value "123.45" = .vstr "123.45" := by
  refine ⟨rfl, ?_, by decide, by decide⟩
  intro cs s
  induction cs with
  | nil => simp [tryConvert]
  | cons c rest ih =>
    cases hp : c.parse s with
    | none =>
      have ha : acceptsCodec c s = false := by simp [acceptsCodec, hp]
      simp [tryConvert, hp, List.find?, ha, ih]
    | some v =>
      cases hd : c.dump v == s with
      | true =>
        have ha : acceptsCodec c s = true := by simp [acceptsCodec, hp, hd]
        simp [tryConvert, hp, hd, List.find?, ha]
      | false =>
        have ha : acceptsCodec c s = false := by simp [acceptsCodec, hp, hd]
        simp [tryConvert, hp, hd, List.find?, ha, ih]

/-! ## Model-content generation (claim C8) -/

/-- C8: with `uv` missing, model-content generation never returns any
(unformatted) content; a successful `format_with_ruff` result requires
`uv` present and a nonempty check-stage stdout, and is exactly the
(nonempty) stdout of the format stage; an empty check-stage stdout is an
immediate error; and model content is produced exactly by customizing the
generator output, formatting, prepending the lint-suppression header and
formatting a second time. -/
theorem get_pydantic_model_content_spec (env : GenEnv) :
    (env.ruff.uvExists = false → ∀ r, get_pydantic_model_content env ≠ .ok r)
    ∧ (∀ s out, format_with_ruff env.ruff s = .ok out →
        env.ruff.uvExists = true
        ∧ (env.ruff.ruff_check s).1 ≠ ""
        ∧ out = (env.ruff.ruff_format (env.ruff.ruff_check s).1).1
        ∧ out ≠ "")
    ∧ (∀ s, env.ruff.uvExists = true → (env.ruff.ruff_check s).1 = "" →
        format_with_ruff env.ruff s
          = .error (.ruffFailed
              ("Ruff formatting failed with error: " ++ (env.ruff.ruff_check s).2)))
    ∧ (∀ r, get_pydantic_model_content env = .ok r ↔
        ∃ c1 c2, env.customize env.generated = .ok c1
          ∧ format_with_ruff env.ruff c1 = .ok c2
          ∧ format_with_ruff env.ruff (build_ruff_noqa_line ++ c2) = .ok r) := by
  refine ⟨?_, ?_, ?_, ?_⟩
  · intro hu r hok
    unfold get_pydantic_model_content at hok
    cases hc : env.customize env.generated with
    | error m => simp [hc] at hok
    | ok c1 => simp [hc, format_with_ruff, confirm_uv_exists, hu] at hok
  · intro s out h
    unfold format_with_ruff confirm_uv_exists at h
    by_cases huv : env.ruff.uvExists
    · simp only [huv, if_true] at h
      by_cases hck : (env.ruff.ruff_check s).1 = ""
      · simp [hck] at h
      · simp only [hck, if_neg, if_false] at h
        by_cases hfm : (env.ruff.ruff_format (env.ruff.ruff_check s).1).1 = ""
        · simp [hfm] at h
        · simp only [hfm, if_neg, if_false] at h
          cases h
          exact ⟨huv, hck, rfl, hfm⟩
    · simp [huv] at h
  · intro s huv hck
    unfold format_with_ruff confirm_uv_exists
    simp [huv, hck]
  · intro r
    constructor
    · intro hok
      unfold get_pydantic_model_content at hok
      cases hc : env.customize env.generated with
      | error m => simp [hc] at hok
      | ok c1 =>
        simp only [hc] at hok
        cases hf1 : format_with_ruff env.ruff c1 with
        | error e => simp [hf1] at hok
        | ok c2 =>
          simp only [hf1] at hok
          cases hf2 : format_with_ruff env.ruff (build_ruff_noqa_line ++ c2) with
          | error e => simp [hf2] at hok
          | ok c4 =>
            simp only [hf2] at hok
            cases hok
            exact ⟨c1, c2, rfl, hf1, hf2⟩
    · rintro ⟨c1, c2, hc, hf1, hf2⟩
      unfold get_pydantic_model_content
      simp [hc, hf1, hf2]

/-- Witness for C8 on a concrete environment whose ruff stages append
markers: the produced content is the second-pass formatting of the
header-prefixed first-pass formatting of the customized generator
output. -/
theorem get_pydantic_model_content_spec_witness :
    get_pydantic_model_content genEnv0
      = .ok (((build_ruff_noqa_line ++ "gxcf") ++ "c") ++ "f") :=
  ((get_pydantic_model_content_spec genEnv0).2.2.2
      (((build_ruff_noqa_line ++ "gxcf") ++ "c") ++ "f")).mpr
    ⟨"gx", "gxcf", rfl, rfl, rfl⟩

/-! ## Customizer (claims C5, C7) -/

/-- Splicing a new type annotation into a class body: the first statement
declaring the field gets only its annotation replaced, with its default
value and every other statement untouched. -/
theorem replaceTypeInBody_splice (fn : String) (newT : PyExpr) :
    ∀ (pre : List PyStmt) (ann : PyExpr) (dflt : Option PyExpr) (post : List PyStmt),
      (∀ s ∈ pre, isFieldNode s fn = false) →
      replaceTypeInBody fn newT (pre ++ .annAssign fn ann dflt :: post)
        = some (pre ++ .annAssign fn newT dflt :: post) := by
  intro pre
  induction pre with
  | nil =>
    intro ann dflt post hpre
    simp [replaceTypeInBody]
  | cons s pre ih =>
    intro ann dflt post hpre
    have hs : isFieldNode s fn = false := hpre s (by simp)
    have hrest : ∀ x ∈ pre, isFieldNode x fn = false :=
      fun x hx => hpre x (by simp [hx])
    cases s with
    | annAssign t a v =>
      have ht : ¬ t = fn := by simpa [isFieldNode] using hs
      simp [replaceTypeInBody, ht, ih ann dflt post hrest]
    | serializerDef f i o b =>
      simp [replaceTypeInBody, ih ann dflt post hrest]
    | other tg =>
      simp [replaceTypeInBody, ih ann dflt post hrest]

/-- Locating a class by name steps over every non-matching top-level item
and applies the body transformation exactly to the named class. -/
theorem updateClassBody_splice (cn : String)
    (f : List PyStmt → Except String (List PyStmt)) :
    ∀ (mpre : List PyTop) (body : List PyStmt) (mpost : List PyTop)
      (body2 : List PyStmt),
      (∀ t ∈ mpre, isClassNamed t cn = false) →
      f body = .ok body2 →
      updateClassBody cn f (mpre ++ .classDef cn body :: mpost)
        = .ok (mpre ++ .classDef cn body2 :: mpost) := by
  intro mpre
  induction mpre with
  | nil =>
    intro body mpost body2 hpre hf
    simp [updateClassBody, hf]
  | cons t mpre ih =>
    intro body mpost body2 hpre hf
    have hs : isClassNamed t cn = false := hpre t (by simp)
    have hrest : ∀ x ∈ mpre, isClassNamed x cn = false :=
      fun x hx => hpre x (by simp [hx])
    cases t with
    | classDef n b =>
      have hn : ¬ n = cn := by simpa [isClassNamed] using hs
      simp [updateClassBody, hn, ih body mpost body2 hrest hf]
    | importStmt l =>
      simp [updateClassBody, ih body mpost body2 hrest hf]
    | otherTop tg =>
      simp [updateClassBody, ih body mpost body2 hrest hf]

/-- C5: applying a customizer holding one Replacement Type rule replaces
only the type annotation of the named field in the named class; the
field's default value (carrying alias and other metadata), every other
statement of the class, and every other top-level item are preserved
unchanged. -/
theorem apply_replacement_type_preserves_metadata
    (cn fn : String) (newT ann : PyExpr) (dflt : Option PyExpr)
    (pre post : List PyStmt) (mpre mpost : List PyTop)
    (hpre : ∀ s ∈ pre, isFieldNode s fn = false)
    (hmpre : ∀ t ∈ mpre, isClassNamed t cn = false)
    (hrepair : replace_untyped_lists
          (mpre ++ .classDef cn (pre ++ .annAssign fn ann dflt :: post) :: mpost)
        = mpre ++ .classDef cn (pre ++ .annAssign fn ann dflt :: post) :: mpost) :
    GAPICustomizer.apply_customizations
        { replacement_fields := [], replacement_types := [⟨cn, fn, newT⟩],
          custom_serializers := [], additional_imports := [] }
        (mpre ++ .classDef cn (pre ++ .annAssign fn ann dflt :: post) :: mpost)
      = .ok (mpre ++ .classDef cn (pre ++ .annAssign fn newT dflt :: post) :: mpost) := by
  have hbody := replaceTypeInBody_splice fn newT pre ann dflt post hpre
  have hcls := updateClassBody_splice cn
      (fun b =>
        match replaceTypeInBody fn newT b with
        | some b2 => .ok b2
        | none => .error ("Field " ++ fn ++ " not found in class " ++ cn))
      mpre (pre ++ .annAssign fn ann dflt :: post) mpost
      (pre ++ .annAssign fn newT dflt :: post) hmpre (by simp [hbody])
  simp [GAPICustomizer.apply_customizations, hrepair, apply_replacement_fields,
        apply_replacement_types, applyReplacementType, hcls,
        apply_custom_serializers, apply_additional_imports]

/-- Witness for C5: the spec's §8 scenario — `x: str = Field(alias="X")`
in class `Model` retyped to `int` keeps the alias-carrying default and
changes only the annotation. -/
theorem apply_replacement_type_preserves_metadata_witness :
    GAPICustomizer.apply_customizations
        { replacement_fields := [],
          replacement_types := [⟨"Model", "x", .name "int"⟩],
          custom_serializers := [], additional_imports := [] } specModule
      = .ok [.classDef "Model"
          [.other "model_config",
           .annAssign "x" (.name "int")
             (some (.call (.name "Field") (.kw "alias" (.strConst "X") .nil)))]] :=
  apply_replacement_type_preserves_metadata "Model" "x" (.name "int") (.name "str")
    (some (.call (.name "Field") (.kw "alias" (.strConst "X") .nil)))
    [.other "model_config"] [] [] []
    (by intro s hs; simp at hs; subst hs; rfl)
    (by intro t ht; simp at ht)
    rfl

/-- C7: `apply_customizations` runs the untyped-list repair first — before
field replacement, (type replacement,) serializer insertion and import
insertion — and the repair maps every class body through `repairStmt`,
which rewrites every field whose declared type is `list[Any]`/`List[Any]`
to the `list[None]` placeholder sentinel while preserving the field's
default. -/
theorem untyped_list_repair_first :
    (∀ (c : GAPICustomizer) (m : PyModule),
      GAPICustomizer.apply_customizations c m
        = (apply_replacement_fields c.replacement_fields
            (replace_untyped_lists m)).bind (fun m2 =>
            (apply_replacement_types c.replacement_types m2).bind (fun m3 =>
              (apply_custom_serializers c.custom_serializers m3).map (fun m4 =>
                apply_additional_imports
                  (c.additional_imports ++
                    (if c.custom_serializers.isEmpty then []
                     else ["from pydantic import field_serializer"])) m4))))
    ∧ (∀ (m : PyModule) (cn : String) (body : List PyStmt),
        PyTop.classDef cn body ∈ m →
        PyTop.classDef cn (body.map repairStmt) ∈ replace_untyped_lists m)
    ∧ (∀ (fn l : String) (dflt : Option PyExpr) (body : List PyStmt),
        (l = "list" ∨ l = "List") →
        PyStmt.annAssign fn (.subscript (.name l) (.name "Any")) dflt ∈ body →
        PyStmt.annAssign fn (.subscript (.name l) .noneConst) dflt ∈ body.map repairStmt) := by
  refine ⟨?_, ?_, ?_⟩
  · intro c m
    unfold GAPICustomizer.apply_customizations
    cases h2 : apply_replacement_fields c.replacement_fields (replace_untyped_lists m) with
    | error e => simp [h2, Except.bind]
    | ok m2 =>
      cases h3 : apply_replacement_types c.replacement_types m2 with
      | error e => simp [h2, h3, Except.bind]
      | ok m3 =>
        cases h4 : apply_custom_serializers c.custom_serializers m3 with
        | error e => simp [h2, h3, h4, Except.bind, Except.map]
        | ok m4 => simp [h2, h3, h4, Except.bind, Except.map]
  · intro m cn body hmem
    have h := List.mem_map_of_mem
      (fun t => match t with
        | PyTop.classDef n b => PyTop.classDef n (b.map repairStmt)
        | t => t) hmem
    simpa [replace_untyped_lists] using h
  · intro fn l dflt body hl hmem
    have h := List.mem_map_of_mem repairStmt hmem
    have hrw : repairStmt (.annAssign fn (.subscript (.name l) (.name "Any")) dflt)
        = .annAssign fn (.subscript (.name l) .noneConst) dflt := by
      rcases hl with h1 | h1 <;> subst h1 <;> rfl
    rwa [hrw] at h

/-- Witness for C7 on a concrete generated class with an untyped-list
field. -/
theorem untyped_list_repair_first_witness :
    PyTop.classDef "Items" (untypedBody.map repairStmt) ∈ replace_untyped_lists untypedModule
    ∧ PyStmt.annAssign "items" (.subscript (.name "list") .noneConst) none
        ∈ untypedBody.map repairStmt :=
  ⟨untyped_list_repair_first.2.1 untypedModule "Items" untypedBody (by simp [untypedModule]),
   untyped_list_repair_first.2.2 "items" "list" none untypedBody (Or.inl rfl)
     (by simp [untypedBody])⟩
